import Mathlib

/-!
Shallow embedding of the `agora` smart contracts
(`src/contract/contracts/event_registry/src/lib.rs` and
`src/contract/contracts/ticket-payment2/src/lib.rs`).

Soroban host facilities (addresses, persistent storage, signature checks,
ledger timestamps, token transfers) are external runtime services; they are
modelled as explicit data: addresses are `Nat`, persistent storage is a
record of typed fields keyed like the contracts' `DataKey` enums, a call
environment carries the set of addresses that have authorized the call
(`require_auth` on an unauthorized address traps, aborting the transaction
with all storage writes reverted), the ledger timestamp, and the token
balances.  A contract function is a pure function from the environment and
the pre-state to a result together with the post-state.

`EventInfo`/`PaymentInfo` follow the struct literals built in
`event_registry/src/lib.rs` (`register_event`, `get_event_payment_info`),
which construct exactly these fields.
-/

/-- Soroban `Address`, modelled as a natural number identifier. -/
abbrev Addr := Nat

/-- Outcome of a contract invocation: a returned `Ok` value, a returned
contract error, or a host trap (e.g. a failed `require_auth`), which aborts
the transaction so that no storage write survives. -/
inductive Res (ε : Type) (α : Type) where
  | ok : α → Res ε α
  | err : ε → Res ε α
  | trap : Res ε α
deriving DecidableEq, Repr

namespace Registry

/-- Modelled from the spec: `event_registry/src/error.rs` is not under
`src/`; the variants are the ones `event_registry/src/lib.rs` uses.
`AlreadyInit`/`NotInit` stand for the source's
`AlreadyInitialized`/`NotInitialized`. -/
inductive RegError where
  | AlreadyInit
  | NotInit
  | InvalidFeePercent
  | InvalidAddress
  | EventAlreadyExists
  | EventNotFound
  | EventInactive
deriving DecidableEq, Repr

/-- `EventInfo` as constructed by `register_event` in
`event_registry/src/lib.rs` (event id, organizer address, payment address,
fee percent in basis points, active flag, creation timestamp). -/
structure EventInfo where
  event_id : String
  organizer_address : Addr
  payment_address : Addr
  platform_fee_percent : Nat
  is_active : Bool
  created_at : Nat
deriving DecidableEq, Repr

/-- `PaymentInfo` as constructed by `get_event_payment_info` in
`event_registry/src/lib.rs`. -/
structure PaymentInfo where
  payment_address : Addr
  platform_fee_percent : Nat
deriving DecidableEq, Repr

/-- Call environment of the registry contract: which addresses have
authorized this invocation, the ledger timestamp, and the contract's own
address (`env.current_contract_address()`). -/
structure REnv where
  authorized : Addr → Bool
  timestamp : Nat
  current_contract : Addr

/-- Modelled from the spec: `event_registry/src/storage.rs` is not under
`src/`; the spec calls the contract "a straightforward set of keyed record
stores" over "persistent key-value storage", so the storage module is a
record with one field per `DataKey` of `event_registry/src/types.rs`
(admin, platform wallet, platform fee, the initialization flag, and the
`event_id -> EventInfo` map).  The `OrganizerEvents` key is not needed by
any claim and is omitted. -/
structure RState where
  admin : Option Addr
  platform_wallet : Option Addr
  platform_fee : Option Nat
  initd : Bool
  events : String → Option EventInfo

/-- Modelled from the spec: `storage::get_platform_fee`, reading the
`PlatformFee` key (0 if the key was never written; every reachable caller
runs after `initialize` has set it). -/
def storage.get_platform_fee (s : RState) : Nat :=
  (s.platform_fee).getD 0

/-- Modelled from the spec: `storage::store_event`, writing the event under
the `Event(event_id)` key. -/
def storage.store_event (s : RState) (info : EventInfo) : RState :=
  { s with events := fun k => if k = info.event_id then some info else s.events k }

/-- Modelled from the spec: `storage::event_exists`. -/
def storage.event_exists (s : RState) (event_id : String) : Bool :=
  (s.events event_id).isSome

/-- Modelled from the spec: `storage::get_event`. -/
def storage.get_event (s : RState) (event_id : String) : Option EventInfo :=
  s.events event_id

/-- `initialize` of `event_registry/src/lib.rs` (renamed here): rejects a
second call, validates both addresses against the contract's own address,
replaces a zero fee argument by the 500 basis-point default, bounds the fee
by 10000, and stores admin, platform wallet, fee and the flag. -/
def registryInit (env : REnv) (s : RState) (admin platform_wallet : Addr)
    (platform_fee_percent : Nat) : Res RegError Unit × RState :=
  if s.initd then (Res.err RegError.AlreadyInit, s)
  else if admin = env.current_contract then (Res.err RegError.InvalidAddress, s)
  else if platform_wallet = env.current_contract then (Res.err RegError.InvalidAddress, s)
  else
    let initial_fee := if platform_fee_percent = 0 then 500 else platform_fee_percent
    if initial_fee > 10000 then (Res.err RegError.InvalidFeePercent, s)
    else (Res.ok (),
      { s with admin := some admin, platform_wallet := some platform_wallet,
               platform_fee := some initial_fee, initd := true })

/-- `register_event` of `event_registry/src/lib.rs`. -/
def register_event (env : REnv) (s : RState) (event_id : String)
    (organizer_address payment_address : Addr) : Res RegError Unit × RState :=
  if ¬ s.initd then (Res.err RegError.NotInit, s)
  else if ¬ env.authorized organizer_address then (Res.trap, s)
  else if storage.event_exists s event_id then (Res.err RegError.EventAlreadyExists, s)
  else
    let platform_fee_percent := storage.get_platform_fee s
    let event_info : EventInfo :=
      ⟨event_id, organizer_address, payment_address, platform_fee_percent,
        true, env.timestamp⟩
    (Res.ok (), storage.store_event s event_info)

/-- `get_event_payment_info` of `event_registry/src/lib.rs`; the Rust
function only reads storage (it takes no write path), so it is embedded as
a pure read returning no post-state. -/
def get_event_payment_info (s : RState) (event_id : String) :
    Res RegError PaymentInfo :=
  match storage.get_event s event_id with
  | some event_info =>
      if ¬ event_info.is_active then Res.err RegError.EventInactive
      else Res.ok ⟨event_info.payment_address, event_info.platform_fee_percent⟩
  | none => Res.err RegError.EventNotFound

/-- `update_event_status` of `event_registry/src/lib.rs`. -/
def update_event_status (env : REnv) (s : RState) (event_id : String)
    (is_active : Bool) : Res RegError Unit × RState :=
  match storage.get_event s event_id with
  | some event_info =>
      if ¬ env.authorized event_info.organizer_address then (Res.trap, s)
      else (Res.ok (), storage.store_event s { event_info with is_active := is_active })
  | none => (Res.err RegError.EventNotFound, s)

/-- The public `store_event` of `event_registry/src/lib.rs`: it writes the
event unconditionally; the body contains no `require_auth` (its comment
reads "In a real scenario, we would check authorization here"), so the
environment argument is unused. -/
def store_event (_env : REnv) (s : RState) (event_info : EventInfo) : RState :=
  storage.store_event s event_info

/-- `set_platform_fee` of `event_registry/src/lib.rs`. -/
def set_platform_fee (env : REnv) (s : RState) (new_fee_percent : Nat) :
    Res RegError Unit × RState :=
  match s.admin with
  | none => (Res.err RegError.NotInit, s)
  | some admin =>
      if ¬ env.authorized admin then (Res.trap, s)
      else if new_fee_percent > 10000 then (Res.err RegError.InvalidFeePercent, s)
      else (Res.ok (), { s with platform_fee := some new_fee_percent })

/-- The public `get_platform_fee` of `event_registry/src/lib.rs`. -/
def get_platform_fee (s : RState) : Nat :=
  storage.get_platform_fee s

end Registry

namespace Ticket

/-- Modelled from the spec: `ticket-payment2/src/error.rs` is not under
`src/`; the variants are the ones `ticket-payment2/src/lib.rs` uses. -/
inductive PayError where
  | InvalidAmount
  | EventRegistryError
  | InvalidEventId
  | Overflow
  | InsufficientBalance
  | PaymentNotFound
  | PaymentAlreadyConfirmed
deriving DecidableEq, Repr

/-- `PaymentStatus` of `ticket-payment2/src/lib.rs`. -/
inductive PaymentStatus where
  | Pending
  | Confirmed
  | Failed
deriving DecidableEq, Repr

/-- `Payment` of `ticket-payment2/src/lib.rs`.  `i128` amounts are embedded
as unbounded `Int`: every arithmetic step of the contract
(`amount * fee / 10000`, `amount - fee`, `counter + 1`) stays far below the
128-bit range for the values the claims quantify over, and the contract's
own `organizer_amount < 0` guard is kept as written. -/
structure Payment where
  payment_id : String
  event_id : String
  buyer : Addr
  amount : Int
  platform_fee : Int
  organizer_amount : Int
  status : PaymentStatus
  created_at : Nat
  confirmed_at : Option Nat
  transaction_hash : Option String
deriving DecidableEq, Repr

/-- The persistent storage of `ticket-payment2/src/lib.rs`, one field per
`DataKey` variant; each is an `Option` because the contract reads every key
with `get(...)` and handles the missing case itself (`ok_or`, `unwrap_or`,
`unwrap_or_else`). -/
structure PState where
  usdc_token : Option Addr
  platform_fee_percent : Option Nat
  platform_wallet : Option Addr
  event_registry : Option Addr
  payment_counter : Option Nat
  payments : Option (String → Option Payment)

/-- Call environment of the payment contract: authorization set and ledger
timestamp. -/
structure PEnv where
  authorized : Addr → Bool
  timestamp : Nat

/-- `format_payment_id` of `ticket-payment2/src/lib.rs`: both parameters
are unused by the source (`_env`, `_counter`); it returns the placeholder
literal. -/
def format_payment_id (_counter : Nat) : String :=
  "PAY-1234567890-1"

/-- The Soroban token client's `transfer`, as the payment contract relies
on it: it moves `x` from `src` to `dst` and traps (returning `none`) on a
negative amount or an insufficient `src` balance. -/
def token_transfer (bals : Addr → Int) (src dst : Addr) (x : Int) :
    Option (Addr → Int) :=
  if x < 0 then none
  else if bals src < x then none
  else
    let b1 := fun a => if a = src then bals a - x else bals a
    some (fun a => if a = dst then b1 a + x else b1 a)

/-- Result of one `process_payment` invocation: the returned value, the
post-state, the post token balances, and the trace of the `transfer` calls
the contract issued, each as (from, to, amount).  On a trap the transaction
aborts, so state and balances are the pre-call ones and the trace is empty. -/
structure PPOut where
  res : Res PayError String
  state : PState
  bals : Addr → Int
  transfers : List (Addr × Addr × Int)

/-- `process_payment` of `ticket-payment2/src/lib.rs`, step for step:
`require_auth` on the buyer; the `amount <= 0` check; reads of the token,
fee-percent (default 0) and platform-wallet keys; the empty-event-id check;
`platform_fee = amount * fee_percent / 10000` and
`organizer_amount = amount - platform_fee` with the `< 0` guard; the
balance check; payment-id generation and counter bump; the two transfers —
the organizer recipient is `platform_wallet.clone()` (the source's
placeholder); and the write of the `Pending` payment record under the
generated id. -/
def process_payment (env : PEnv) (s : PState) (bals : Addr → Int)
    (buyer : Addr) (event_id : String) (amount : Int) : PPOut :=
  if ¬ env.authorized buyer then ⟨Res.trap, s, bals, []⟩
  else if amount ≤ 0 then ⟨Res.err PayError.InvalidAmount, s, bals, []⟩
  else
    match s.usdc_token with
    | none => ⟨Res.err PayError.EventRegistryError, s, bals, []⟩
    | some _usdc_token =>
      let platform_fee_percent := (s.platform_fee_percent).getD 0
      match s.platform_wallet with
      | none => ⟨Res.err PayError.EventRegistryError, s, bals, []⟩
      | some platform_wallet =>
        if event_id.isEmpty then ⟨Res.err PayError.InvalidEventId, s, bals, []⟩
        else
          let platform_fee : Int := amount * (platform_fee_percent : Int) / 10000
          let organizer_amount := amount - platform_fee
          if organizer_amount < 0 then ⟨Res.err PayError.Overflow, s, bals, []⟩
          else
            let balance := bals buyer
            if balance < amount then ⟨Res.err PayError.InsufficientBalance, s, bals, []⟩
            else
              let counter := (s.payment_counter).getD 0
              let payment_id := format_payment_id counter
              let s1 := { s with payment_counter := some (counter + 1) }
              match token_transfer bals buyer platform_wallet platform_fee with
              | none => ⟨Res.trap, s, bals, []⟩
              | some bals1 =>
                let organizer_address := platform_wallet
                match token_transfer bals1 buyer organizer_address organizer_amount with
                | none => ⟨Res.trap, s, bals, []⟩
                | some bals2 =>
                  let payment : Payment :=
                    ⟨payment_id, event_id, buyer, amount, platform_fee,
                      organizer_amount, PaymentStatus.Pending, env.timestamp,
                      none, none⟩
                  let payments := (s1.payments).getD (fun _ => none)
                  let payments2 :=
                    fun k => if k = payment_id then some payment else payments k
                  ⟨Res.ok payment_id, { s1 with payments := some payments2 },
                    bals2,
                    [(buyer, platform_wallet, platform_fee),
                     (buyer, organizer_address, organizer_amount)]⟩

/-- `confirm_payment` of `ticket-payment2/src/lib.rs`: looks the payment up
(missing `Payments` key or missing id gives `PaymentNotFound`), rejects an
already `Confirmed` payment, and otherwise rewrites the record with status
`Confirmed`, the ledger timestamp and the given transaction hash.  The
function performs no `require_auth`. -/
def confirm_payment (env : PEnv) (s : PState) (payment_id transaction_hash : String) :
    Res PayError Unit × PState :=
  match s.payments with
  | none => (Res.err PayError.PaymentNotFound, s)
  | some payments =>
    match payments payment_id with
    | none => (Res.err PayError.PaymentNotFound, s)
    | some payment =>
      if payment.status = PaymentStatus.Confirmed then
        (Res.err PayError.PaymentAlreadyConfirmed, s)
      else
        let payment2 :=
          { payment with status := PaymentStatus.Confirmed,
                         confirmed_at := some env.timestamp,
                         transaction_hash := some transaction_hash }
        let payments2 :=
          fun k => if k = payment_id then some payment2 else payments k
        (Res.ok (), { s with payments := some payments2 })

/-- `get_payment` of `ticket-payment2/src/lib.rs`. -/
def get_payment (s : PState) (payment_id : String) : Res PayError Payment :=
  match s.payments with
  | none => Res.err PayError.PaymentNotFound
  | some payments =>
    match payments payment_id with
    | none => Res.err PayError.PaymentNotFound
    | some payment => Res.ok payment

end Ticket

/-! Concrete environments, states and balances used by the closed theorems
and witnesses below. -/

/-- A registry call in which every address has authorized. -/
def allAuthR : Registry.REnv := ⟨fun _ => true, 100, 0⟩

/-- A registry call in which no address has authorized. -/
def noAuthR : Registry.REnv := ⟨fun _ => false, 100, 0⟩

/-- The registry's empty (uninitialized) storage. -/
def rs0 : Registry.RState := ⟨none, none, none, false, fun _ => none⟩

/-- An initialized registry storage: admin 1, platform wallet 2, fee 500
basis points, no events. -/
def rsA : Registry.RState := ⟨some 1, some 2, some 500, true, fun _ => none⟩

/-- A sample stored event: organizer 5, payment address 6, fee 250,
active, created at 7. -/
def einfo1 : Registry.EventInfo := ⟨"e1", 5, 6, 250, true, 7⟩

/-- `rsA` with `einfo1` stored under `"e1"`. -/
def rsE : Registry.RState :=
  { rsA with events := fun k => if k = "e1" then some einfo1 else none }

/-- A payment call in which every address has authorized. -/
def allAuthP : Ticket.PEnv := ⟨fun _ => true, 100⟩

/-- A payment call in which no address has authorized. -/
def noAuthP : Ticket.PEnv := ⟨fun _ => false, 100⟩

/-- Initialized payment storage: token 7, fee 500 basis points, platform
wallet 2, registry 3, counter 0, empty payments map. -/
def ps1 : Ticket.PState := ⟨some 7, some 500, some 2, some 3, some 0, some (fun _ => none)⟩

/-- Token balances: buyer 1 holds 10000, everyone else 0. -/
def bals1 : Addr → Int := fun a => if a = 1 then 10000 else 0

/-- A pending stored payment, as `process_payment` would record it for
buyer 1 paying 1000 at fee 500 basis points. -/
def pay1 : Ticket.Payment :=
  ⟨"PAY-1234567890-1", "evt", 1, 1000, 50, 950, Ticket.PaymentStatus.Pending,
    100, none, none⟩

/-- `ps1` with `pay1` stored (still pending). -/
def psPending : Ticket.PState :=
  { ps1 with payments := some (fun k => if k = "PAY-1234567890-1" then some pay1 else none) }

/-- C1: on a successful `process_payment` (buyer 1, amount 1000, stored fee
500 basis points, platform wallet 2) the platform fee is
`1000 * 500 / 10000 = 50` and the remainder 950, the parts sum to the
amount — but both transfers are issued to the platform wallet (address 2):
the organizer recipient is the source's `platform_wallet.clone()`
placeholder, not a recipient distinct from the platform wallet, contrary
to the claim and to the function's own documentation. -/
theorem process_payment_remainder_goes_to_platform_wallet :
    (Ticket.process_payment allAuthP ps1 bals1 1 "evt" 1000).res
        = Res.ok "PAY-1234567890-1"
  ∧ (Ticket.process_payment allAuthP ps1 bals1 1 "evt" 1000).transfers
        = [(1, 2, 50), (1, 2, 950)]
  ∧ ps1.platform_wallet = some 2
  ∧ (50 : Int) + 950 = 1000
  ∧ (1000 * 500 / 10000 : Int) = 50 := by
  refine ⟨?_, ?_, rfl, by decide, by decide⟩ <;> decide

/-- C2 (counterexample): the public `store_event` writes to persistent
storage on a call in which no address at all has authorized: the claim
that every storage-modifying operation performs `require_auth` before any
write is false for `store_event` (and for `confirm_payment`, which also
succeeds with no authorization). -/
theorem store_event_writes_without_any_auth :
    (Registry.store_event noAuthR rs0 einfo1).events "e1" = some einfo1
  ∧ rs0.events "e1" = none
  ∧ (Ticket.confirm_payment noAuthP psPending "PAY-1234567890-1" "h").1 = Res.ok ()
  ∧ noAuthR.authorized = (fun _ => false)
  ∧ noAuthP.authorized = (fun _ => false) := by
  refine ⟨rfl, rfl, by decide, rfl, rfl⟩

/-- C2 (amended): `register_event`, `update_event_status`,
`set_platform_fee` and `process_payment` authenticate the acting party
(organizer, stored organizer, admin, buyer) before any write — an
unauthorized call leaves storage (and balances) unchanged — but the public
`store_event` and `confirm_payment` perform no authentication: the former
writes the event unconditionally and the latter confirms a pending payment
under any environment, including one in which nobody has authorized. -/
theorem writes_gated_by_auth_except_store_and_confirm :
    (∀ env s event_id org pay, env.authorized org = false →
        (Registry.register_event env s event_id org pay).2 = s)
  ∧ (∀ env s event_id b info, s.events event_id = some info →
        env.authorized info.organizer_address = false →
        (Registry.update_event_status env s event_id b).2 = s)
  ∧ (∀ env s nf a, s.admin = some a → env.authorized a = false →
        (Registry.set_platform_fee env s nf).2 = s)
  ∧ (∀ env s bals buyer event_id amt, env.authorized buyer = false →
        (Ticket.process_payment env s bals buyer event_id amt).state = s
      ∧ (Ticket.process_payment env s bals buyer event_id amt).bals = bals)
  ∧ (∀ env s info, (Registry.store_event env s info).events info.event_id = some info)
  ∧ (∀ env s pid h payments payment, s.payments = some payments →
        payments pid = some payment →
        payment.status ≠ Ticket.PaymentStatus.Confirmed →
        (Ticket.confirm_payment env s pid h).1 = Res.ok ()) := by
  refine ⟨?_, ?_, ?_, ?_, ?_, ?_⟩
  · intro env s event_id org pay hauth
    by_cases hinit : s.initd <;>
      simp [Registry.register_event, hinit, hauth]
  · intro env s event_id b info hget hauth
    simp [Registry.update_event_status, Registry.storage.get_event, hget, hauth]
  · intro env s nf a hadmin hauth
    simp [Registry.set_platform_fee, hadmin, hauth]
  · intro env s bals buyer event_id amt hauth
    constructor <;> simp [Ticket.process_payment, hauth]
  · intro env s info
    simp [Registry.store_event, Registry.storage.store_event]
  · intro env s pid h payments payment hpm hp hstatus
    simp [Ticket.confirm_payment, hpm, hp, hstatus]

/-- Witness for C2's amended theorem: the admin (address 1) of `rsA` has
not authorized under `noAuthR`, so `set_platform_fee` leaves storage
unchanged. -/
theorem writes_gated_by_auth_witness :
    (Registry.set_platform_fee noAuthR rsA 300).2 = rsA :=
  writes_gated_by_auth_except_store_and_confirm.2.2.1 noAuthR rsA 300 1 rfl rfl

/-- Past the `amount <= 0` check, no later branch of `process_payment`
produces `InvalidAmount`. -/
theorem process_payment_res_ne_invalidAmount (env : Ticket.PEnv)
    (s : Ticket.PState) (bals : Addr → Int) (buyer : Addr)
    (event_id : String) (amt : Int) (h : ¬ amt ≤ 0) :
    (Ticket.process_payment env s bals buyer event_id amt).res
      ≠ Res.err Ticket.PayError.InvalidAmount := by
  unfold Ticket.process_payment
  repeat' split
  all_goals try simp_all
  all_goals repeat' split
  all_goals simp_all

/-- C3 (counterexample): amount 0 is non-negative, yet `process_payment`
rejects it with `InvalidAmount` — the source check is `amount <= 0`, not
`amount < 0`. -/
theorem process_payment_rejects_zero_amount :
    (Ticket.process_payment allAuthP ps1 bals1 1 "evt" 0).res
        = Res.err Ticket.PayError.InvalidAmount
  ∧ ¬ ((0 : Int) < 0) := ⟨by decide, by decide⟩

/-- C3 (amended): `process_payment`'s amount validation rejects with
`InvalidAmount` exactly the non-positive amounts (`amount <= 0`, so 0 is
rejected too); every positive amount passes that check; and on rejection
the whole storage — payments map and payment counter included — and the
balances are unchanged. -/
theorem process_payment_amount_check (env : Ticket.PEnv) (s : Ticket.PState)
    (bals : Addr → Int) (buyer : Addr) (event_id : String) (amt : Int)
    (hauth : env.authorized buyer = true) :
    ((Ticket.process_payment env s bals buyer event_id amt).res
        = Res.err Ticket.PayError.InvalidAmount ↔ amt ≤ 0)
  ∧ (amt ≤ 0 →
        (Ticket.process_payment env s bals buyer event_id amt).state = s
      ∧ (Ticket.process_payment env s bals buyer event_id amt).bals = bals) := by
  by_cases hA : amt ≤ 0
  · refine ⟨?_, fun _ => ?_⟩ <;> simp [Ticket.process_payment, hauth, hA]
  · refine ⟨⟨fun hres => absurd hres ?_, fun hle => absurd hle hA⟩,
      fun hle => absurd hle hA⟩
    exact process_payment_res_ne_invalidAmount env s bals buyer event_id amt hA

/-- Witness for C3's amended theorem at amount 0: buyer 1 is authorized
under `allAuthP`, the call returns `InvalidAmount`, and state and balances
are untouched. -/
theorem process_payment_amount_check_witness :
    (Ticket.process_payment allAuthP ps1 bals1 1 "evt" 0).res
        = Res.err Ticket.PayError.InvalidAmount
  ∧ (Ticket.process_payment allAuthP ps1 bals1 1 "evt" 0).state = ps1
  ∧ (Ticket.process_payment allAuthP ps1 bals1 1 "evt" 0).bals = bals1 :=
  ⟨(process_payment_amount_check allAuthP ps1 bals1 1 "evt" 0 rfl).1.mpr (by decide),
   ((process_payment_amount_check allAuthP ps1 bals1 1 "evt" 0 rfl).2 (by decide)).1,
   ((process_payment_amount_check allAuthP ps1 bals1 1 "evt" 0 rfl).2 (by decide)).2⟩

/-- C4: with the stored admin authorized, `set_platform_fee` stores every
`new_fee_percent <= 10000` so that `get_platform_fee` reads back exactly
that value, and rejects every `new_fee_percent > 10000` with
`InvalidFeePercent`, leaving storage — the stored fee included —
unchanged. -/
theorem set_platform_fee_bound (env : Registry.REnv) (s : Registry.RState)
    (a : Addr) (nf : Nat) (hadmin : s.admin = some a)
    (hauth : env.authorized a = true) :
    (nf ≤ 10000 →
        (Registry.set_platform_fee env s nf).1 = Res.ok ()
      ∧ Registry.get_platform_fee (Registry.set_platform_fee env s nf).2 = nf)
  ∧ (10000 < nf →
        (Registry.set_platform_fee env s nf).1
            = Res.err Registry.RegError.InvalidFeePercent
      ∧ (Registry.set_platform_fee env s nf).2 = s) := by
  constructor
  · intro hle
    constructor <;>
      simp [Registry.set_platform_fee, hadmin, hauth, Nat.not_lt.mpr hle,
        Registry.get_platform_fee, Registry.storage.get_platform_fee]
  · intro hgt
    constructor <;> simp [Registry.set_platform_fee, hadmin, hauth, hgt]

/-- Witness for C4 at fee 300 on `rsA` (admin 1 authorized): the call
succeeds and `get_platform_fee` reads back 300. -/
theorem set_platform_fee_bound_witness :
    (Registry.set_platform_fee allAuthR rsA 300).1 = Res.ok ()
  ∧ Registry.get_platform_fee (Registry.set_platform_fee allAuthR rsA 300).2 = 300 :=
  (set_platform_fee_bound allAuthR rsA 1 300 rfl rfl).1 (by decide)

/-- C5: on an initialized registry with the organizer authorized,
`register_event` returns `EventAlreadyExists` with storage unchanged when
the id is taken, and otherwise stores an `EventInfo` carrying exactly the
three arguments, the current global platform fee, `is_active = true` and
the current ledger timestamp. -/
theorem register_event_spec (env : Registry.REnv) (s : Registry.RState)
    (event_id : String) (org pay : Addr) (hinit : s.initd = true)
    (hauth : env.authorized org = true) :
    (∀ info, s.events event_id = some info →
        Registry.register_event env s event_id org pay
          = (Res.err Registry.RegError.EventAlreadyExists, s))
  ∧ (s.events event_id = none →
        (Registry.register_event env s event_id org pay).1 = Res.ok ()
      ∧ (Registry.register_event env s event_id org pay).2.events event_id
          = some ⟨event_id, org, pay, Registry.get_platform_fee s, true,
              env.timestamp⟩) := by
  constructor
  · intro info hsome
    simp [Registry.register_event, hinit, hauth, Registry.storage.event_exists,
      hsome]
  · intro hnone
    constructor <;>
      simp [Registry.register_event, hinit, hauth, Registry.storage.event_exists,
        hnone, Registry.storage.store_event, Registry.storage.get_platform_fee,
        Registry.get_platform_fee]

/-- Witness for C5 on `rsA` (initialized, empty, fee 500): registering
`"e1"` for organizer 5 with payment address 6 at timestamp 100 succeeds
and stores exactly that record. -/
theorem register_event_spec_witness :
    (Registry.register_event allAuthR rsA "e1" 5 6).1 = Res.ok ()
  ∧ (Registry.register_event allAuthR rsA "e1" 5 6).2.events "e1"
      = some ⟨"e1", 5, 6, Registry.get_platform_fee rsA, true,
          allAuthR.timestamp⟩ :=
  (register_event_spec allAuthR rsA "e1" 5 6 rfl rfl).2 rfl

/-- C6: `confirm_payment` returns `PaymentNotFound` when the payments map
is absent or has no entry for the id, `PaymentAlreadyConfirmed` when the
stored payment is already `Confirmed` — the whole state, the payments map
included, unchanged on every error path — and otherwise succeeds,
rewriting exactly the addressed record with status `Confirmed`,
`confirmed_at = some (ledger timestamp)` and
`transaction_hash = some hash`. -/
theorem confirm_payment_spec (env : Ticket.PEnv) (s : Ticket.PState)
    (pid hash : String) :
    (s.payments = none →
        Ticket.confirm_payment env s pid hash
          = (Res.err Ticket.PayError.PaymentNotFound, s))
  ∧ (∀ pm, s.payments = some pm → pm pid = none →
        Ticket.confirm_payment env s pid hash
          = (Res.err Ticket.PayError.PaymentNotFound, s))
  ∧ (∀ pm p, s.payments = some pm → pm pid = some p →
        p.status = Ticket.PaymentStatus.Confirmed →
        Ticket.confirm_payment env s pid hash
          = (Res.err Ticket.PayError.PaymentAlreadyConfirmed, s))
  ∧ (∀ pm p, s.payments = some pm → pm pid = some p →
        p.status ≠ Ticket.PaymentStatus.Confirmed →
        (Ticket.confirm_payment env s pid hash).1 = Res.ok ()
      ∧ (Ticket.confirm_payment env s pid hash).2.payments
          = some (fun k => if k = pid then
                some { p with status := Ticket.PaymentStatus.Confirmed,
                              confirmed_at := some env.timestamp,
                              transaction_hash := some hash }
              else pm k)) := by
  refine ⟨?_, ?_, ?_, ?_⟩
  · intro hnone
    simp [Ticket.confirm_payment, hnone]
  · intro pm hpm hnone
    simp [Ticket.confirm_payment, hpm, hnone]
  · intro pm p hpm hp hconf
    simp [Ticket.confirm_payment, hpm, hp, hconf]
  · intro pm p hpm hp hpend
    constructor <;> simp [Ticket.confirm_payment, hpm, hp, hpend]

/-- Witness for C6: confirming the pending payment of `psPending` succeeds
and rewrites exactly its record. -/
theorem confirm_payment_spec_witness :
    (Ticket.confirm_payment allAuthP psPending "PAY-1234567890-1" "h").1
        = Res.ok ()
  ∧ (Ticket.confirm_payment allAuthP psPending "PAY-1234567890-1" "h").2.payments
      = some (fun k => if k = "PAY-1234567890-1" then
            some { pay1 with status := Ticket.PaymentStatus.Confirmed,
                             confirmed_at := some allAuthP.timestamp,
                             transaction_hash := some "h" }
          else (fun j => if j = "PAY-1234567890-1" then some pay1 else none) k) :=
  (confirm_payment_spec allAuthP psPending "PAY-1234567890-1" "h").2.2.2
    (fun j => if j = "PAY-1234567890-1" then some pay1 else none) pay1
    rfl (by decide) (by decide)

/-- C7: for a stored event whose record carries its own key (the invariant
`register_event` maintains) and whose organizer is authorized,
`update_event_status` flips only `is_active`: the rewritten record differs
from the old one in that flag alone, every other event key and every other
storage field is untouched; a missing id gives `EventNotFound` with
storage unchanged. -/
theorem update_event_status_frame (env : Registry.REnv) (s : Registry.RState)
    (event_id : String) (b : Bool) :
    (∀ info, s.events event_id = some info → info.event_id = event_id →
        env.authorized info.organizer_address = true →
        (Registry.update_event_status env s event_id b).1 = Res.ok ()
      ∧ (Registry.update_event_status env s event_id b).2.events event_id
          = some { info with is_active := b }
      ∧ (∀ k, k ≠ event_id →
            (Registry.update_event_status env s event_id b).2.events k
              = s.events k)
      ∧ (Registry.update_event_status env s event_id b).2.admin = s.admin
      ∧ (Registry.update_event_status env s event_id b).2.platform_wallet
          = s.platform_wallet
      ∧ (Registry.update_event_status env s event_id b).2.platform_fee
          = s.platform_fee
      ∧ (Registry.update_event_status env s event_id b).2.initd = s.initd)
  ∧ (s.events event_id = none →
        Registry.update_event_status env s event_id b
          = (Res.err Registry.RegError.EventNotFound, s)) := by
  constructor
  · intro info hsome hkey hauth
    refine ⟨?_, ?_, fun k hk => ?_, ?_, ?_, ?_, ?_⟩ <;>
      simp_all [Registry.update_event_status, Registry.storage.get_event,
        Registry.storage.store_event]
  · intro hnone
    simp [Registry.update_event_status, Registry.storage.get_event, hnone]

/-- Witness for C7 on `rsE`: deactivating `"e1"` succeeds, rewrites only
that record's flag, and leaves the key `"e2"` and the fee field alone. -/
theorem update_event_status_frame_witness :
    (Registry.update_event_status allAuthR rsE "e1" false).1 = Res.ok ()
  ∧ (Registry.update_event_status allAuthR rsE "e1" false).2.events "e1"
      = some { einfo1 with is_active := false }
  ∧ (Registry.update_event_status allAuthR rsE "e1" false).2.events "e2"
      = rsE.events "e2"
  ∧ (Registry.update_event_status allAuthR rsE "e1" false).2.platform_fee
      = rsE.platform_fee :=
  ⟨((update_event_status_frame allAuthR rsE "e1" false).1 einfo1 (by decide)
      rfl rfl).1,
   ((update_event_status_frame allAuthR rsE "e1" false).1 einfo1 (by decide)
      rfl rfl).2.1,
   ((update_event_status_frame allAuthR rsE "e1" false).1 einfo1 (by decide)
      rfl rfl).2.2.1 "e2" (by decide),
   ((update_event_status_frame allAuthR rsE "e1" false).1 einfo1 (by decide)
      rfl rfl).2.2.2.2.2.1⟩

/-- C8: `get_event_payment_info` returns `EventNotFound` on a missing id,
`EventInactive` on an inactive stored event, and otherwise a `PaymentInfo`
holding exactly the stored event's payment address and fee percent; the
embedding is a pure read (the Rust function takes no write path), so it
modifies no storage. -/
theorem get_event_payment_info_spec (s : Registry.RState) (event_id : String) :
    (s.events event_id = none →
        Registry.get_event_payment_info s event_id
          = Res.err Registry.RegError.EventNotFound)
  ∧ (∀ info, s.events event_id = some info → info.is_active = false →
        Registry.get_event_payment_info s event_id
          = Res.err Registry.RegError.EventInactive)
  ∧ (∀ info, s.events event_id = some info → info.is_active = true →
        Registry.get_event_payment_info s event_id
          = Res.ok ⟨info.payment_address, info.platform_fee_percent⟩) := by
  refine ⟨?_, ?_, ?_⟩ <;> intros <;>
    simp_all [Registry.get_event_payment_info, Registry.storage.get_event]

/-- Witness for C8 on `rsE`: the active stored event `"e1"` yields its
payment address 6 and fee percent 250. -/
theorem get_event_payment_info_spec_witness :
    Registry.get_event_payment_info rsE "e1"
      = Res.ok ⟨einfo1.payment_address, einfo1.platform_fee_percent⟩ :=
  (get_event_payment_info_spec rsE "e1").2.2 einfo1 (by decide) rfl

/-- C9: on an uninitialized registry with both addresses valid, calling
the registry's initialization with fee 0 stores the 500 basis-point
default (so `get_platform_fee` then returns 500), and every fee argument
in `1..=10000` is stored unchanged. -/
theorem registryInit_zero_fee_defaults (env : Registry.REnv)
    (s : Registry.RState) (admin pw : Addr) (hni : s.initd = false)
    (ha : admin ≠ env.current_contract) (hp : pw ≠ env.current_contract) :
    ((Registry.registryInit env s admin pw 0).1 = Res.ok ()
      ∧ Registry.get_platform_fee (Registry.registryInit env s admin pw 0).2
          = 500)
  ∧ (∀ f, 1 ≤ f → f ≤ 10000 →
        (Registry.registryInit env s admin pw f).1 = Res.ok ()
      ∧ Registry.get_platform_fee (Registry.registryInit env s admin pw f).2
          = f) := by
  constructor
  · constructor <;>
      simp [Registry.registryInit, hni, ha, hp, Registry.get_platform_fee,
        Registry.storage.get_platform_fee]
  · intro f h1 h2
    have hf0 : ¬ f = 0 := by omega
    have hfle : ¬ f > 10000 := by omega
    constructor <;>
      simp [Registry.registryInit, hni, ha, hp, hf0, hfle,
        Registry.get_platform_fee, Registry.storage.get_platform_fee]

/-- Witness for C9 on `rs0` (uninitialized; the contract's own address is
0, the arguments 1 and 2): fee argument 0 stores 500, fee argument 7 is
stored as given. -/
theorem registryInit_zero_fee_defaults_witness :
    (Registry.registryInit allAuthR rs0 1 2 0).1 = Res.ok ()
  ∧ Registry.get_platform_fee (Registry.registryInit allAuthR rs0 1 2 0).2 = 500
  ∧ Registry.get_platform_fee (Registry.registryInit allAuthR rs0 1 2 7).2 = 7 :=
  ⟨(registryInit_zero_fee_defaults allAuthR rs0 1 2 rfl (by decide) (by decide)).1.1,
   (registryInit_zero_fee_defaults allAuthR rs0 1 2 rfl (by decide) (by decide)).1.2,
   ((registryInit_zero_fee_defaults allAuthR rs0 1 2 rfl (by decide)
      (by decide)).2 7 (by decide) (by decide)).2⟩

/-- On every successful run, `process_payment` returned the constant
payment id and its post-state is the pre-state with the counter bumped
and the payments map rewritten at that single id. -/
theorem process_payment_ok_shape (env : Ticket.PEnv) (s : Ticket.PState)
    (bals : Addr → Int) (buyer : Addr) (event_id : String) (amt : Int)
    (pid : String)
    (hok : (Ticket.process_payment env s bals buyer event_id amt).res
        = Res.ok pid) :
    pid = "PAY-1234567890-1"
  ∧ (Ticket.process_payment env s bals buyer event_id amt).state
      = { s with payment_counter := some ((s.payment_counter).getD 0 + 1),
                 payments := some (fun k =>
                   if k = "PAY-1234567890-1" then
                     some ⟨"PAY-1234567890-1", event_id, buyer, amt,
                       amt * (((s.platform_fee_percent).getD 0 : Nat) : Int) / 10000,
                       amt - amt * (((s.platform_fee_percent).getD 0 : Nat) : Int)
                           / 10000,
                       Ticket.PaymentStatus.Pending, env.timestamp, none, none⟩
                   else ((s.payments).getD (fun _ => none)) k) } := by
  unfold Ticket.process_payment at hok
  repeat' split at hok
  all_goals try simp at hok
  all_goals repeat' split at hok
  all_goals try simp at hok
  all_goals
    refine ⟨by simp_all [Ticket.format_payment_id], ?_⟩
  all_goals
    simp_all [Ticket.process_payment, Ticket.format_payment_id]
  all_goals
    rw [if_neg (by omega), if_neg (by omega), if_neg (by omega)]

/-- C10: `format_payment_id` ignores its counter and returns the constant
`"PAY-1234567890-1"`; hence every successful `process_payment` returns
that id, bumps the payment counter by one, and writes its own record —
the full `Pending` record of this very call — under that single key while
touching no other key: a later successful payment overwrites the earlier
record. -/
theorem payment_ids_collide (env : Ticket.PEnv) (s : Ticket.PState)
    (bals : Addr → Int) (buyer : Addr) (event_id : String) (amt : Int)
    (c : Nat) (pid : String)
    (hok : (Ticket.process_payment env s bals buyer event_id amt).res
        = Res.ok pid) :
    Ticket.format_payment_id c = "PAY-1234567890-1"
  ∧ pid = "PAY-1234567890-1"
  ∧ (Ticket.process_payment env s bals buyer event_id amt).state.payment_counter
      = some ((s.payment_counter).getD 0 + 1)
  ∧ ((Ticket.process_payment env s bals buyer event_id amt).state.payments).getD
        (fun _ => none) "PAY-1234567890-1"
      = some ⟨"PAY-1234567890-1", event_id, buyer, amt,
          amt * (((s.platform_fee_percent).getD 0 : Nat) : Int) / 10000,
          amt - amt * (((s.platform_fee_percent).getD 0 : Nat) : Int) / 10000,
          Ticket.PaymentStatus.Pending, env.timestamp, none, none⟩
  ∧ (∀ k, k ≠ "PAY-1234567890-1" →
        ((Ticket.process_payment env s bals buyer event_id amt).state.payments).getD
            (fun _ => none) k
          = ((s.payments).getD (fun _ => none)) k) := by
  obtain ⟨hpid, hstate⟩ :=
    process_payment_ok_shape env s bals buyer event_id amt pid hok
  refine ⟨rfl, hpid, ?_, ?_, ?_⟩
  · rw [hstate]
  · rw [hstate]; simp
  · intro k hk
    rw [hstate]; simp [hk]

/-- Witness for C10: the successful concrete payment of C1's scenario
returns the constant id, bumps the counter from 0 to 1, stores its record
under the constant id, and leaves the unrelated key `"other"` alone. -/
theorem payment_ids_collide_witness :
    Ticket.format_payment_id 3 = "PAY-1234567890-1"
  ∧ (Ticket.process_payment allAuthP ps1 bals1 1 "evt" 1000).state.payment_counter
      = some ((ps1.payment_counter).getD 0 + 1)
  ∧ ((Ticket.process_payment allAuthP ps1 bals1 1 "evt" 1000).state.payments).getD
        (fun _ => none) "PAY-1234567890-1"
      = some ⟨"PAY-1234567890-1", "evt", 1, 1000,
          1000 * (((ps1.platform_fee_percent).getD 0 : Nat) : Int) / 10000,
          1000 - 1000 * (((ps1.platform_fee_percent).getD 0 : Nat) : Int) / 10000,
          Ticket.PaymentStatus.Pending, allAuthP.timestamp, none, none⟩
  ∧ ((Ticket.process_payment allAuthP ps1 bals1 1 "evt" 1000).state.payments).getD
        (fun _ => none) "other"
      = ((ps1.payments).getD (fun _ => none)) "other" :=
  ⟨(payment_ids_collide allAuthP ps1 bals1 1 "evt" 1000 3 "PAY-1234567890-1"
      (by decide)).1,
   (payment_ids_collide allAuthP ps1 bals1 1 "evt" 1000 3 "PAY-1234567890-1"
      (by decide)).2.2.1,
   (payment_ids_collide allAuthP ps1 bals1 1 "evt" 1000 3 "PAY-1234567890-1"
      (by decide)).2.2.2.1,
   (payment_ids_collide allAuthP ps1 bals1 1 "evt" 1000 3 "PAY-1234567890-1"
      (by decide)).2.2.2.2 "other" (by decide)⟩
